import Mathlib

/-!
Verification of the TaskLens model-orchestration core.

This file gives a shallow embedding, in Lean 4, of the orchestration code of
the TaskLens backend (`tasklens/backend/services/openai_service.py`,
`tasklens/backend/core/schemas.py`, `tasklens/backend/api/main.py`, and the
earlier two-stage pipeline in `services.py`), and proves or refutes the
specified properties of the retrying invoker, the tool-call loop driver, the
structured-output validator, the image normalizer and the endpoint input gate.
-/

namespace TaskLens

/- ===================================================================
   Part 1: the Retrying Invoker
   (`OpenAIService._make_api_call_with_retry`, openai_service.py 104-164)
   =================================================================== -/

/-- Outcome of one outbound HTTP attempt, as observed by the `try` block of
`_make_api_call_with_retry`: a successful response body, an
`httpx.HTTPStatusError` raised by `raise_for_status` carrying the status code,
or an `httpx.TimeoutException`. -/
inductive AttemptOutcome where
  | ok (body : String)
  | httpStatus (code : Nat)
  | timeout
deriving DecidableEq, Repr

/-- Error surfaced by `_make_api_call_with_retry`. `clientError` is the
re-raised `HTTPStatusError` for a 4xx code (the spec's `UpstreamClientError`),
`serverError` the re-raised 5xx `HTTPStatusError` (`UpstreamServerError`),
`timeoutErr` the re-raised `TimeoutException` (`UpstreamTimeout`). -/
inductive RetryError where
  | clientError (code : Nat)
  | serverError (code : Nat)
  | timeoutErr
deriving DecidableEq, Repr

/-- Trace of one execution of `_make_api_call_with_retry`: how many outbound
calls were made, which backoff delays (`asyncio.sleep` arguments, in seconds)
were inserted between calls, and the result. `result = none` models the
implicit `None` return of the Python function when the `for` loop body never
runs (only possible when `max_retries = 0`). -/
structure RetryTrace where
  calls : Nat
  delays : List Nat
  result : Option (Except RetryError String)
deriving Repr

/-- Body of `for attempt in range(max_retries)` in
`_make_api_call_with_retry`. The list argument is the remaining attempt
indices of the `range`; `endpoint attempt` is the outcome of the attempt's
outbound call. A 4xx status is re-raised at once; a 5xx status or a timeout
sleeps `base_delay * 2 ** attempt` and continues when `attempt <
max_retries - 1`, and re-raises on the last attempt. -/
def retryLoop (endpoint : Nat → AttemptOutcome) (maxRetries baseDelay : Nat) :
    List Nat → RetryTrace
  | [] => ⟨0, [], none⟩
  | attempt :: rest =>
    match endpoint attempt with
    | .ok body => ⟨1, [], some (.ok body)⟩
    | .httpStatus code =>
      if 400 ≤ code ∧ code < 500 then
        ⟨1, [], some (.error (.clientError code))⟩
      else if attempt < maxRetries - 1 then
        let r := retryLoop endpoint maxRetries baseDelay rest
        ⟨r.calls + 1, baseDelay * 2 ^ attempt :: r.delays, r.result⟩
      else
        ⟨1, [], some (.error (.serverError code))⟩
    | .timeout =>
      if attempt < maxRetries - 1 then
        let r := retryLoop endpoint maxRetries baseDelay rest
        ⟨r.calls + 1, baseDelay * 2 ^ attempt :: r.delays, r.result⟩
      else
        ⟨1, [], some (.error .timeoutErr)⟩

/-- The function `_make_api_call_with_retry`: iterate the loop body over
`range(max_retries)` with `base_delay = 1` (hardcoded in the source). -/
def make_api_call_with_retry (endpoint : Nat → AttemptOutcome)
    (maxRetries : Nat) : RetryTrace :=
  retryLoop endpoint maxRetries 1 (List.range maxRetries)

lemma retryLoop_success (endpoint : Nat → AttemptOutcome) (codes : Nat → Nat)
    (maxRetries baseDelay : Nat) :
    ∀ k attempt body,
      attempt + k < maxRetries →
      (∀ i, i < k → endpoint (attempt + i) = .httpStatus (codes (attempt + i)) ∧
        500 ≤ codes (attempt + i) ∧ codes (attempt + i) < 600) →
      endpoint (attempt + k) = .ok body →
      retryLoop endpoint maxRetries baseDelay
          (List.range' attempt (maxRetries - attempt)) =
        ⟨k + 1, (List.range' attempt k).map (fun i => baseDelay * 2 ^ i),
          some (.ok body)⟩ := by
  intro k
  induction k with
  | zero =>
    intro attempt body hlt _hfail hok
    obtain ⟨m, hm⟩ : ∃ m, maxRetries - attempt = m + 1 := by
      refine ⟨maxRetries - attempt - 1, ?_⟩
      omega
    rw [hm, List.range'_succ, retryLoop]
    simp only [Nat.add_zero] at hok
    rw [hok]
    simp
  | succ k ih =>
    intro attempt body hlt hfail hok
    obtain ⟨m, hm⟩ : ∃ m, maxRetries - attempt = m + 1 := by
      refine ⟨maxRetries - attempt - 1, ?_⟩
      omega
    rw [hm, List.range'_succ, retryLoop]
    obtain ⟨hcall, hlo, hhi⟩ := hfail 0 (Nat.succ_pos k)
    simp only [Nat.add_zero] at hcall hlo hhi
    rw [hcall]
    have hnotclient : ¬ (400 ≤ codes attempt ∧ codes attempt < 500) := by omega
    have hretry : attempt < maxRetries - 1 := by omega
    simp only [hnotclient, if_false, hretry, if_true]
    have hm' : m = maxRetries - (attempt + 1) := by omega
    have hrec := ih (attempt + 1) body (by omega)
      (fun i hi => by
        have := hfail (i + 1) (by omega)
        simpa [Nat.add_assoc, Nat.add_comm 1 i] using this)
      (by simpa [Nat.add_assoc, Nat.add_comm 1 k] using hok)
    rw [hm', hrec]
    simp [List.range'_succ]

lemma retryLoop_allfail (endpoint : Nat → AttemptOutcome) (codes : Nat → Nat)
    (maxRetries baseDelay : Nat) :
    ∀ fuel attempt,
      attempt + fuel = maxRetries → 1 ≤ fuel →
      (∀ i, i < fuel → endpoint (attempt + i) = .httpStatus (codes (attempt + i)) ∧
        500 ≤ codes (attempt + i) ∧ codes (attempt + i) < 600) →
      (retryLoop endpoint maxRetries baseDelay (List.range' attempt fuel)).result =
        some (.error (.serverError (codes (maxRetries - 1)))) := by
  intro fuel
  induction fuel with
  | zero => intro attempt _ h1; omega
  | succ f ih =>
    intro attempt htot _h1 hfail
    rw [List.range'_succ, retryLoop]
    obtain ⟨hcall, hlo, hhi⟩ := hfail 0 (Nat.succ_pos f)
    simp only [Nat.add_zero] at hcall hlo hhi
    rw [hcall]
    have hnotclient : ¬ (400 ≤ codes attempt ∧ codes attempt < 500) := by omega
    rcases Nat.eq_zero_or_pos f with hf | hf
    · subst hf
      have hlast : ¬ attempt < maxRetries - 1 := by omega
      have hatt : attempt = maxRetries - 1 := by omega
      simp only [hnotclient, if_false, hlast]
      simp [hatt]
    · have hretry : attempt < maxRetries - 1 := by omega
      simp only [hnotclient, if_false, hretry, if_true]
      exact ih (attempt + 1) (by omega) hf
        (fun i hi => by
          have := hfail (i + 1) (by omega)
          simpa [Nat.add_assoc, Nat.add_comm 1 i] using this)

/-- Claim C1: with `k < maxRetries` 5xx failures followed by a success, the
retrying invoker returns the success body after exactly `k + 1` calls with
backoff delays `base_delay * 2 ^ attempt` (`base_delay = 1`), which are
strictly increasing; and when all `maxRetries` attempts fail with 5xx, the
error of the last attempt is surfaced. -/
theorem retry_backoff_c1 (maxRetries k : Nat) (body : String)
    (ep1 ep2 : Nat → AttemptOutcome) (codes1 codes2 : Nat → Nat) :
    (k < maxRetries →
      (∀ i, i < k → ep1 i = .httpStatus (codes1 i) ∧
        500 ≤ codes1 i ∧ codes1 i < 600) →
      ep1 k = .ok body →
      make_api_call_with_retry ep1 maxRetries =
        ⟨k + 1, (List.range k).map (fun i => 1 * 2 ^ i), some (.ok body)⟩ ∧
      ((List.range k).map (fun i => 1 * 2 ^ i)).Chain' (· < ·)) ∧
    (1 ≤ maxRetries →
      (∀ i, i < maxRetries → ep2 i = .httpStatus (codes2 i) ∧
        500 ≤ codes2 i ∧ codes2 i < 600) →
      (make_api_call_with_retry ep2 maxRetries).result =
        some (.error (.serverError (codes2 (maxRetries - 1))))) := by
  constructor
  · intro hk hfail hok
    constructor
    · have := retryLoop_success ep1 codes1 maxRetries 1 k 0 body
        (by omega) (fun i hi => by simpa using hfail i hi) (by simpa using hok)
      simpa [make_api_call_with_retry, List.range_eq_range'] using this
    · have hpw : ((List.range k).map (fun i => 1 * 2 ^ i)).Pairwise (· < ·) := by
        refine (List.pairwise_map).2 ?_
        refine (List.pairwise_lt_range k).imp ?_
        intro a b hab
        simpa using Nat.pow_lt_pow_right (by norm_num) hab
      exact hpw.chain'
  · intro h1 hfail
    have := retryLoop_allfail ep2 codes2 maxRetries 1 maxRetries 0
      (by omega) h1 (fun i hi => by simpa using hfail i hi)
    simpa [make_api_call_with_retry, List.range_eq_range'] using this

/-- Witness for C1 at a concrete instance: `maxRetries = 3`, two 500 failures
then success, and separately three straight 500/502/503 failures. -/
theorem retry_backoff_c1_witness :
    (make_api_call_with_retry
        (fun n => if n < 2 then .httpStatus 500 else .ok "OKBODY") 3 =
      ⟨3, [1, 2], some (.ok "OKBODY")⟩ ∧
      ([1, 2] : List Nat).Chain' (· < ·)) ∧
    (make_api_call_with_retry
        (fun n => .httpStatus (500 + n)) 3).result =
      some (.error (.serverError 502)) := by
  have h := retry_backoff_c1 3 2 "OKBODY"
    (fun n => if n < 2 then .httpStatus 500 else .ok "OKBODY")
    (fun n => .httpStatus (500 + n))
    (fun _ => 500) (fun n => 500 + n)
  constructor
  · have h1 := h.1 (by omega)
      (fun i hi => by
        constructor
        · simp [hi]
        · omega)
      (by norm_num)
    constructor
    · have := h1.1
      simpa [List.range_succ] using this
    · exact List.chain'_cons.2 ⟨by norm_num, List.chain'_singleton 2⟩
  · have h2 := h.2 (by omega)
      (fun i hi => by
        constructor
        · rfl
        · omega)
    exact h2

/-- Claim C4 (amended): for `maxRetries ≥ 1`, a 4xx status on the first call
is surfaced at once as a client error: exactly one call, no delay, no retry. -/
theorem client_error_no_retry_c4 (maxRetries code : Nat)
    (ep : Nat → AttemptOutcome)
    (h1 : 1 ≤ maxRetries) (h2 : ep 0 = .httpStatus code)
    (h3 : 400 ≤ code) (h4 : code < 500) :
    make_api_call_with_retry ep maxRetries =
      ⟨1, [], some (.error (.clientError code))⟩ := by
  obtain ⟨m, rfl⟩ : ∃ m, maxRetries = m + 1 := ⟨maxRetries - 1, by omega⟩
  rw [make_api_call_with_retry, List.range_eq_range', List.range'_succ, retryLoop,
    h2]
  have : 400 ≤ code ∧ code < 500 := ⟨h3, h4⟩
  simp [this]

/-- Witness for the amended C4: a 404 response with `maxRetries = 3`. -/
theorem client_error_no_retry_c4_witness :
    make_api_call_with_retry (fun _ => .httpStatus 404) 3 =
      ⟨1, [], some (.error (.clientError 404))⟩ :=
  client_error_no_retry_c4 3 404 (fun _ => .httpStatus 404)
    (by omega) rfl (by omega) (by omega)

/-- Counterexample to C4 as stated: the claim quantifies over every value of
`maxRetries`, but with `max_retries = 0` the `for` loop body never runs, so
zero outbound calls are made and no `UpstreamClientError` is surfaced (the
Python function falls through and returns `None`). -/
theorem client_error_c4_cex :
    (make_api_call_with_retry (fun _ => .httpStatus 404) 0).calls = 0 ∧
    (make_api_call_with_retry (fun _ => .httpStatus 404) 0).result = none := by
  constructor
  · rfl
  · rfl

/- ===================================================================
   Part 2: the Tool-Call Loop Driver
   (`OpenAIService.generate_wiring_plan_combined`, openai_service.py 534-647)
   =================================================================== -/

/-- One tool call requested by the model. `query` models the already-parsed
`"query"` argument (`json.loads(tool_call["function"]["arguments"]).get("query", "")`);
the JSON decoding of the argument string itself is abstracted. -/
structure ToolCall where
  id : String
  name : String
  query : String
deriving DecidableEq, Repr

/-- The assistant message of one round: its text content and the
`tool_calls` it requests (`[]` models an absent or empty `tool_calls` field,
both falsy in the source's `if not tool_calls`). -/
structure ModelReply where
  content : String
  tool_calls : List ToolCall
deriving DecidableEq, Repr

/-- One turn of the growing `messages` conversation. -/
inductive Turn where
  | system (content : String)
  | user (content : String)
  | assistant (reply : ModelReply)
  | tool (tool_call_id : String) (content : String)
deriving DecidableEq, Repr

/-- A scripted remote model for driving the loop: `reply n` is the assistant
message returned by the n-th Active round-trip (1-based, matching the
source's `iteration` counter), `finalText` the content returned by the final
strict-schema invocation, and `search` the behaviour of `web_search_tool`. -/
structure ModelScript where
  reply : Nat → ModelReply
  finalText : String
  search : String → String

/-- Error raised when the loop hits its iteration cap: the source's
`ValueError("Maximum iterations reached in function calling loop")`, the
spec's `ToolLoopExceeded`. -/
inductive WireError where
  | toolLoopExceeded
deriving DecidableEq, Repr

/-- Result of one run of the tool-call loop: the final conversation, the
number of Active round-trips made, the number of tool dispatches executed,
the number of final strict-schema invocations issued (0 or 1), and either
the final invocation's text (handed to the extractor) or the error. -/
structure LoopResult where
  messages : List Turn
  rounds : Nat
  dispatches : Nat
  finalCalls : Nat
  outcome : Except WireError String

/-- Dispatch of one requested tool call (openai_service.py 614-637): the
registered `web_search_tool` is executed on the parsed query; any other
function name yields the synthetic `json.dumps({"error": "Unknown function"})`
tool result instead of failing the loop. -/
def dispatchToolCall (search : String → String) (tc : ToolCall) : Turn :=
  if tc.name = "web_search_tool" then .tool tc.id (search tc.query)
  else .tool tc.id "\x7b\"error\": \"Unknown function\"\x7d"

/-- The instruction turn appended before the final strict-schema call
(openai_service.py 572-575). -/
def formatInstruction : String :=
  "Now format your complete plan as JSON conforming to the schema."

/-- The `while iteration < max_iterations` loop of
`generate_wiring_plan_combined`. `fuel` is only a structural-termination
bound: the branch it cuts is unreachable whenever `fuel > maxIterations -
iteration`, which the wrapper guarantees. Each pass increments `iteration`,
makes one Active call, appends the assistant message; an empty `tool_calls`
list switches to finalizing (instruction turn plus one strict-schema call),
otherwise every requested tool call is dispatched and its result appended. -/
def toolLoopAux (script : ModelScript) (maxIterations : Nat) :
    Nat → List Turn → Nat → LoopResult
  | _, messages, 0 => ⟨messages, 0, 0, 0, .error .toolLoopExceeded⟩
  | iteration, messages, fuel + 1 =>
    if iteration < maxIterations then
      let iter := iteration + 1
      let reply := script.reply iter
      let messages := messages ++ [Turn.assistant reply]
      if reply.tool_calls = [] then
        ⟨messages ++ [Turn.user formatInstruction], 1, 0, 1, .ok script.finalText⟩
      else
        let toolTurns := reply.tool_calls.map (dispatchToolCall script.search)
        let r := toolLoopAux script maxIterations iter (messages ++ toolTurns) fuel
        ⟨r.messages, r.rounds + 1, r.dispatches + reply.tool_calls.length,
          r.finalCalls, r.outcome⟩
    else
      ⟨messages, 0, 0, 0, .error .toolLoopExceeded⟩

/-- The tool-call loop of `generate_wiring_plan_combined`, started on the
initial conversation with `max_iterations = 10` and `iteration = 0`. -/
def generate_wiring_plan_combined_loop (script : ModelScript)
    (initial : List Turn) : LoopResult :=
  toolLoopAux script 10 0 initial 11

lemma toolLoopAux_all_tools (script : ModelScript) (maxIterations : Nat)
    (h : ∀ n, (script.reply n).tool_calls ≠ []) :
    ∀ fuel iteration messages,
      (toolLoopAux script maxIterations iteration messages fuel).outcome =
          .error .toolLoopExceeded ∧
      (toolLoopAux script maxIterations iteration messages fuel).finalCalls = 0 ∧
      (toolLoopAux script maxIterations iteration messages fuel).rounds =
        min (maxIterations - iteration) fuel := by
  intro fuel
  induction fuel with
  | zero =>
    intro iteration messages
    refine ⟨rfl, rfl, ?_⟩
    simp [toolLoopAux]
  | succ f ih =>
    intro iteration messages
    by_cases hit : iteration < maxIterations
    · have hne := h (iteration + 1)
      obtain ⟨ho, hf, hr⟩ := ih (iteration + 1)
        (messages ++ [Turn.assistant (script.reply (iteration + 1))] ++
          (script.reply (iteration + 1)).tool_calls.map
            (dispatchToolCall script.search))
      rw [toolLoopAux]
      simp only [hit, if_true, hne, if_false]
      refine ⟨ho, hf, ?_⟩
      rw [hr]
      omega
    · have hz : maxIterations - iteration = 0 := by omega
      rw [toolLoopAux]
      simp [hit, hz]

/-- Claim C2: with a scripted model that requests at least one tool call on
every round, the loop makes exactly `max_iterations = 10` Active round-trips,
issues no strict-schema call, and fails with `ToolLoopExceeded`. -/
theorem tool_loop_exhaustion_c2 (script : ModelScript) (initial : List Turn)
    (h : ∀ n, (script.reply n).tool_calls ≠ []) :
    (generate_wiring_plan_combined_loop script initial).outcome =
        .error .toolLoopExceeded ∧
    (generate_wiring_plan_combined_loop script initial).rounds = 10 ∧
    (generate_wiring_plan_combined_loop script initial).finalCalls = 0 := by
  obtain ⟨ho, hf, hr⟩ := toolLoopAux_all_tools script 10 h 11 0 initial
  refine ⟨ho, ?_, hf⟩
  rw [generate_wiring_plan_combined_loop, hr]
  omega

/-- Witness for C2: a concrete script that always requests one search. -/
theorem tool_loop_exhaustion_c2_witness :
    (generate_wiring_plan_combined_loop
        ⟨fun _ => ⟨"", [⟨"id1", "web_search_tool", "pinout"⟩]⟩, "FINAL",
          fun _ => "result"⟩ []).outcome = .error .toolLoopExceeded ∧
    (generate_wiring_plan_combined_loop
        ⟨fun _ => ⟨"", [⟨"id1", "web_search_tool", "pinout"⟩]⟩, "FINAL",
          fun _ => "result"⟩ []).rounds = 10 ∧
    (generate_wiring_plan_combined_loop
        ⟨fun _ => ⟨"", [⟨"id1", "web_search_tool", "pinout"⟩]⟩, "FINAL",
          fun _ => "result"⟩ []).finalCalls = 0 :=
  tool_loop_exhaustion_c2
    ⟨fun _ => ⟨"", [⟨"id1", "web_search_tool", "pinout"⟩]⟩, "FINAL",
      fun _ => "result"⟩ [] (fun _ => by simp)

/-- Claim C7: with a script requesting one tool call on rounds 1 and 2 and
none on round 3, the loop executes exactly two dispatches, appends exactly
two tool-result turns, and on the third round finalizes: one instruction
turn is appended and one strict-schema invocation is issued, whose text is
handed to the extractor. -/
theorem tool_loop_two_rounds_c7 (script : ModelScript) (initial : List Turn)
    (tc1 tc2 : ToolCall) (c1 c2 c3 : String)
    (h1 : script.reply 1 = ⟨c1, [tc1]⟩)
    (h2 : script.reply 2 = ⟨c2, [tc2]⟩)
    (h3 : script.reply 3 = ⟨c3, []⟩) :
    generate_wiring_plan_combined_loop script initial =
      ⟨initial ++
        [Turn.assistant ⟨c1, [tc1]⟩, dispatchToolCall script.search tc1,
         Turn.assistant ⟨c2, [tc2]⟩, dispatchToolCall script.search tc2,
         Turn.assistant ⟨c3, []⟩, Turn.user formatInstruction],
       3, 2, 1, .ok script.finalText⟩ := by
  rw [generate_wiring_plan_combined_loop]
  rw [show (11 : Nat) = 10 + 1 from rfl, toolLoopAux]
  norm_num [h1]
  rw [show (10 : Nat) = 9 + 1 from rfl, toolLoopAux]
  norm_num [h2]
  rw [show (9 : Nat) = 8 + 1 from rfl, toolLoopAux]
  norm_num [h3]

/-- Witness for C7 at a concrete script. -/
theorem tool_loop_two_rounds_c7_witness :
    generate_wiring_plan_combined_loop
        ⟨fun n => if n = 1 then ⟨"a", [⟨"i1", "web_search_tool", "q1"⟩]⟩
          else if n = 2 then ⟨"b", [⟨"i2", "other_fn", "q2"⟩]⟩
          else ⟨"c", []⟩, "FINAL", fun q => "hit:" ++ q⟩ [] =
      ⟨[Turn.assistant ⟨"a", [⟨"i1", "web_search_tool", "q1"⟩]⟩,
        Turn.tool "i1" "hit:q1",
        Turn.assistant ⟨"b", [⟨"i2", "other_fn", "q2"⟩]⟩,
        Turn.tool "i2" "\x7b\"error\": \"Unknown function\"\x7d",
        Turn.assistant ⟨"c", []⟩, Turn.user formatInstruction],
       3, 2, 1, .ok "FINAL"⟩ := by
  have h := tool_loop_two_rounds_c7
    ⟨fun n => if n = 1 then ⟨"a", [⟨"i1", "web_search_tool", "q1"⟩]⟩
      else if n = 2 then ⟨"b", [⟨"i2", "other_fn", "q2"⟩]⟩
      else ⟨"c", []⟩, "FINAL", fun q => "hit:" ++ q⟩ []
    ⟨"i1", "web_search_tool", "q1"⟩ ⟨"i2", "other_fn", "q2"⟩ "a" "b" "c"
    rfl rfl rfl
  rw [h]
  rfl

/- ===================================================================
   Part 3: the Structured Output Extractor & Validator
   (`WiringStep`, core/schemas.py 82-94, and the extraction in
   `generate_wiring_plan_combined`, openai_service.py 600-611)
   =================================================================== -/

/-- Parsed JSON values, the output type of `json.loads`. -/
inductive Json where
  | null
  | bool (b : Bool)
  | int (n : Int)
  | str (s : String)
  | arr (elems : List Json)
  | obj (fields : List (String × Json))

/-- Dictionary lookup (`d.get(k)` / keyword-argument lookup): first binding
of the key, if any. -/
def getField (fields : List (String × Json)) (k : String) : Option Json :=
  (fields.find? (fun p => p.1 == k)).map (fun p => p.2)

/-- Accept a JSON value for an `int` pydantic field. Lax numeric coercions of
pydantic (e.g. integral floats or digit strings) are not modelled: only exact
integers are accepted; no theorem below depends on the difference. -/
def asInt : Json → Option Int
  | .int n => some n
  | _ => none

/-- Accept a JSON value for a `str` pydantic field. -/
def asStr : Json → Option String
  | .str s => some s
  | _ => none

/-- Accept a JSON value for a `bool` pydantic field. -/
def asBool : Json → Option Bool
  | .bool b => some b
  | _ => none

/-- Field with a pydantic string default: an absent key yields the default,
a present key must hold a string. -/
def withDefaultStr : Option Json → String → Option String
  | none, d => some d
  | some v, _ => asStr v

/-- Field with a pydantic bool default: an absent key yields the default,
a present key must hold a bool. -/
def withDefaultBool : Option Json → Bool → Option Bool
  | none, d => some d
  | some v, _ => asBool v

/-- The `WiringStep` pydantic model (core/schemas.py 82-94): nine required
fields, plus `diagram_url` defaulting to `""` and
`requires_photo_verification` defaulting to `True`. -/
structure WiringStep where
  step_id : Int
  component : String
  target_label : String
  value_required : String
  target_pin : String
  unsafe_option : String
  feedback_text : String
  error_text : String
  diagram_url : String
  requires_photo_verification : Bool
  verification_criteria : String
deriving DecidableEq, Repr

/-- Validation performed by `WiringStep(**step)`: `step` must be an object;
each required field must be present with the declared primitive type; the two
defaulted fields may be absent. No constraint on `step_id` values, on
`diagram_url` contents, or between steps is checked. -/
def validateWiringStep (j : Json) : Option WiringStep :=
  match j with
  | .obj fields =>
    ((getField fields "step_id").bind asInt).bind fun step_id =>
    ((getField fields "component").bind asStr).bind fun component =>
    ((getField fields "target_label").bind asStr).bind fun target_label =>
    ((getField fields "value_required").bind asStr).bind fun value_required =>
    ((getField fields "target_pin").bind asStr).bind fun target_pin =>
    ((getField fields "unsafe_option").bind asStr).bind fun unsafe_option =>
    ((getField fields "feedback_text").bind asStr).bind fun feedback_text =>
    ((getField fields "error_text").bind asStr).bind fun error_text =>
    (withDefaultStr (getField fields "diagram_url") "").bind fun diagram_url =>
    (withDefaultBool (getField fields "requires_photo_verification") true).bind
      fun requires_photo_verification =>
    ((getField fields "verification_criteria").bind asStr).bind
      fun verification_criteria =>
    some ⟨step_id, component, target_label, value_required, target_pin,
      unsafe_option, feedback_text, error_text, diagram_url,
      requires_photo_verification, verification_criteria⟩
  | _ => none

/-- The Python list comprehension `[WiringStep(**step) for step in steps]`:
validate every element, failing on the first invalid one. -/
def validateAll {α : Type} (f : Json → Option α) : List Json → Option (List α)
  | [] => some []
  | j :: rest => (f j).bind fun a => (validateAll f rest).map (fun l => a :: l)

/-- Extraction of the validated step list from the parsed final response
(openai_service.py 604-611): `response_obj.get("steps", [])` — an absent key
yields the empty list, a non-object response or a non-array `steps` value
raises — then element-wise `WiringStep` validation. -/
def extract_wiring_steps (response : Json) : Option (List WiringStep) :=
  match response with
  | .obj fields =>
    match getField fields "steps" with
    | some (.arr xs) => validateAll validateWiringStep xs
    | some _ => none
    | none => some []
  | _ => none

/-- The nine `WiringStep` fields that have no default and so are required. -/
def requiredWiringFields : List String :=
  ["step_id", "component", "target_label", "value_required", "target_pin",
   "unsafe_option", "feedback_text", "error_text", "verification_criteria"]

/-- The §3 uniqueness/density invariant claimed for accepted plans: the step
sequence numbers are exactly 1..N in order. -/
def seqDense (steps : List WiringStep) : Prop :=
  steps.map WiringStep.step_id =
    (List.range steps.length).map (fun i => (i : Int) + 1)

/-- Claim C3 (amended): a value accepted by the validator has every
non-defaulted field present in the input (absence of any of the nine required
fields is rejected), while `diagram_url` and `requires_photo_verification`
default to `""` and `true` when absent. No uniqueness/density of `step_id`,
no URL well-formedness, and no step count are enforced (see the
counterexample). -/
theorem validator_fieldwise_c3 (fields : List (String × Json)) (s : WiringStep)
    (h : validateWiringStep (Json.obj fields) = some s) :
    (∀ k ∈ requiredWiringFields, (getField fields k).isSome = true) ∧
    (getField fields "diagram_url" = none → s.diagram_url = "") ∧
    (getField fields "requires_photo_verification" = none →
      s.requires_photo_verification = true) := by
  simp only [validateWiringStep, Option.bind_eq_some, Option.some.injEq] at h
  obtain ⟨a1, ⟨j1, hj1, -⟩, a2, ⟨j2, hj2, -⟩, a3, ⟨j3, hj3, -⟩,
    a4, ⟨j4, hj4, -⟩, a5, ⟨j5, hj5, -⟩, a6, ⟨j6, hj6, -⟩, a7, ⟨j7, hj7, -⟩,
    a8, ⟨j8, hj8, -⟩, a9, h9, a10, h10, a11, ⟨j11, hj11, -⟩, heq⟩ := h
  subst heq
  refine ⟨?_, ?_, ?_⟩
  · intro k hk
    fin_cases hk
    · rw [hj1]; rfl
    · rw [hj2]; rfl
    · rw [hj3]; rfl
    · rw [hj4]; rfl
    · rw [hj5]; rfl
    · rw [hj6]; rfl
    · rw [hj7]; rfl
    · rw [hj8]; rfl
    · rw [hj11]; rfl
  · intro hnone
    rw [hnone] at h9
    simp only [withDefaultStr, Option.some.injEq] at h9
    simp [← h9]
  · intro hnone
    rw [hnone] at h10
    simp only [withDefaultBool, Option.some.injEq] at h10
    simp [← h10]

/-- Example input for the amended C3: all nine required fields present, both
defaulted fields absent. -/
def exWiringFields : List (String × Json) :=
  [("step_id", Json.int 1), ("component", Json.str "LED"),
   ("target_label", Json.str "GPIO Pin 17"),
   ("value_required", Json.str "220 ohm"), ("target_pin", Json.str "Pin 17"),
   ("unsafe_option", Json.str "5V Pin"), ("feedback_text", Json.str "why/how"),
   ("error_text", Json.str "warning"),
   ("verification_criteria", Json.str "photo of wire")]

/-- The validated value of `exWiringFields`, with both defaults applied. -/
def exWiringStep : WiringStep :=
  ⟨1, "LED", "GPIO Pin 17", "220 ohm", "Pin 17", "5V Pin", "why/how",
   "warning", "", true, "photo of wire"⟩

/-- Witness for the amended C3 at a concrete accepted input. -/
theorem validator_fieldwise_c3_witness :
    (∀ k ∈ requiredWiringFields, (getField exWiringFields k).isSome = true) ∧
    (getField exWiringFields "diagram_url" = none →
      exWiringStep.diagram_url = "") ∧
    (getField exWiringFields "requires_photo_verification" = none →
      exWiringStep.requires_photo_verification = true) :=
  validator_fieldwise_c3 exWiringFields exWiringStep rfl

/-- A step object violating the §3 invariants that the validator nevertheless
accepts: `step_id` 7, empty `component`, non-URL non-empty `diagram_url`,
absent `requires_photo_verification`. -/
def badWiringStepJson : Json :=
  Json.obj
    [("step_id", Json.int 7), ("component", Json.str ""),
     ("target_label", Json.str "L"), ("value_required", Json.str "V"),
     ("target_pin", Json.str "P"), ("unsafe_option", Json.str "U"),
     ("feedback_text", Json.str "F"), ("error_text", Json.str "E"),
     ("diagram_url", Json.str "not a url"),
     ("verification_criteria", Json.str "C")]

/-- A final response whose `steps` array repeats the bad step twice. -/
def badWiringResponse : Json :=
  Json.obj [("steps", Json.arr [badWiringStepJson, badWiringStepJson])]

/-- The step value the validator produces for `badWiringStepJson`. -/
def badWiringStep : WiringStep :=
  ⟨7, "", "L", "V", "P", "U", "F", "E", "not a url", true, "C"⟩

/-- Counterexample to C3 as stated: the extractor accepts a two-step list
with duplicated, non-dense sequence numbers (7, 7), an empty required-string
value, a non-empty `diagram_url` that is not a well-formed URL, and a step
count of 2 — none of the §3 invariants are enforced. -/
theorem validator_invariants_c3_cex :
    extract_wiring_steps badWiringResponse =
      some [badWiringStep, badWiringStep] ∧
    ¬ seqDense [badWiringStep, badWiringStep] ∧
    [badWiringStep, badWiringStep].length ≠ 6 := by
  refine ⟨rfl, ?_, by decide⟩
  unfold seqDense
  decide

/-- Claim C9: serialising an accepted `WiringStep` with `model_dump` and
re-validating the result through `WiringStep` construction yields the same
value field-for-field. The embedding follows `step.model_dump()`, which emits
all eleven fields. -/
def model_dump (s : WiringStep) : Json :=
  Json.obj
    [("step_id", Json.int s.step_id), ("component", Json.str s.component),
     ("target_label", Json.str s.target_label),
     ("value_required", Json.str s.value_required),
     ("target_pin", Json.str s.target_pin),
     ("unsafe_option", Json.str s.unsafe_option),
     ("feedback_text", Json.str s.feedback_text),
     ("error_text", Json.str s.error_text),
     ("diagram_url", Json.str s.diagram_url),
     ("requires_photo_verification", Json.bool s.requires_photo_verification),
     ("verification_criteria", Json.str s.verification_criteria)]

/-- Claim C9: validation after serialisation is the identity on validated
steps. -/
theorem wiring_step_roundtrip_c9 (s : WiringStep) :
    validateWiringStep (model_dump s) = some s := by
  cases s
  rfl

/- ===================================================================
   Part 4: the Encoded Image Normalizer
   (inline in `identify_component`, openai_service.py 189-207; the same
   block appears in `generate_wiring_plan_combined`, 417-430)
   =================================================================== -/

/-- Value of a standard base64 alphabet character, `none` otherwise. -/
def b64val (c : Char) : Option Nat :=
  if 65 ≤ c.toNat ∧ c.toNat ≤ 90 then some (c.toNat - 65)
  else if 97 ≤ c.toNat ∧ c.toNat ≤ 122 then some (c.toNat - 97 + 26)
  else if 48 ≤ c.toNat ∧ c.toNat ≤ 57 then some (c.toNat - 48 + 52)
  else if c = '+' then some 62
  else if c = '/' then some 63
  else none

/-- The `binascii.a2b_base64` scanner in its default non-strict mode:
characters outside the alphabet are discarded; a `=` with at least two
accumulated characters in the current quad completes the stream once the
quad plus the pads reach four; bytes are emitted incrementally per quad
position; a trailing quad of length 1 or of length 2-3 without padding is an
error. State: current quad position, carried bits, pad count, emitted bytes
in reverse. -/
def a2bAux : List Char → Nat → Nat → Nat → List Nat → Except String (List Nat)
  | [], quad_pos, _, _, acc =>
    if quad_pos = 0 then .ok acc.reverse
    else if quad_pos = 1 then
      .error "Invalid base64-encoded string: number of data characters cannot be 1 more than a multiple of 4"
    else .error "Incorrect padding"
  | c :: rest, quad_pos, leftchar, pads, acc =>
    if c = '=' then
      if 2 ≤ quad_pos then
        if 4 ≤ quad_pos + (pads + 1) then .ok acc.reverse
        else a2bAux rest quad_pos leftchar (pads + 1) acc
      else a2bAux rest quad_pos leftchar pads acc
    else
      match b64val c with
      | none => a2bAux rest quad_pos leftchar pads acc
      | some v =>
        match quad_pos with
        | 0 => a2bAux rest 1 v pads acc
        | 1 => a2bAux rest 2 (v % 16) pads ((leftchar * 4 + v / 16) :: acc)
        | 2 => a2bAux rest 3 (v % 4) pads ((leftchar * 16 + v / 4) :: acc)
        | _ => a2bAux rest 0 0 pads ((leftchar * 64 + v) :: acc)

/-- The regex pre-check of `base64.b64decode(..., validate=True)`: the input
must be alphabet characters followed by at most two `=`. -/
def b64regexOk (cs : List Char) : Bool :=
  let rest := cs.dropWhile (fun c => (b64val c).isSome)
  decide (rest.length ≤ 2) && rest.all (fun c => c = '=')

/-- `base64.b64decode` on a `str` argument: the string must be ASCII; with
`validate=True` the character regex is checked first; then the non-strict
`a2b_base64` scan runs. Returns the decoded bytes. -/
def pyB64Decode (validate : Bool) (s : String) : Except String (List Nat) :=
  if s.data.any (fun c => 128 ≤ c.toNat) then
    .error "string argument should contain only ASCII characters"
  else if validate && !(b64regexOk s.data) then .error "Non-base64 digit found"
  else a2bAux s.data 0 0 0 []

/-- The chained `replace` calls of openai_service.py line 202: remove every
newline, carriage return, space and tab (replacement of distinct single
characters by the empty string, in any order, is a filter). -/
def stripWs (s : String) : String :=
  String.mk (s.data.filter (fun c => !(c == '\n' || c == '\r' || c == ' ' || c == '\t')))

/-- Python `str.lower()` restricted to its ASCII behaviour, which is all the
source applies it to. -/
def lowerStr (s : String) : String :=
  String.mk (s.data.map Char.toLower)

/-- Substring test over characters: Python's `pat in s`. -/
def containsSubChars (pat : List Char) : List Char → Bool
  | [] => pat.isEmpty
  | c :: rest => pat.isPrefixOf (c :: rest) || containsSubChars pat rest

/-- Python's `pat in s` on strings. -/
def containsSub (s pat : String) : Bool :=
  containsSubChars pat.data s.data

/-- Python's `s.startswith(pre)`. -/
def pyStartsWith (s pre : String) : Bool :=
  pre.data.isPrefixOf s.data

/-- Comma splitter underlying Python's `s.split(',')`: accumulates the
current segment in reverse. -/
def splitCommaAux : List Char → List Char → List (List Char)
  | [], cur => [cur.reverse]
  | c :: rest, cur =>
    if c = ',' then cur.reverse :: splitCommaAux rest []
    else splitCommaAux rest (c :: cur)

/-- Python's `s.split(',')[1]`: the second comma-separated segment; `none`
models the `IndexError` when the string holds no comma. -/
def pySplitField1 (s : String) : Option String :=
  match splitCommaAux s.data [] with
  | _ :: second :: _ => some (String.mk second)
  | _ => none

/-- The prefix-stripping and format-detection half of the normalizer
(openai_service.py 190-202): if the input starts with `data:image`, the
format is chosen by searching the whole lowercased input for `jpeg`, then
`png` (default `jpeg`), and the payload is the segment after the first
comma; whitespace is then removed from the payload. -/
def extractPayloadFormat (image_base64 : String) : Except String (String × String) :=
  if pyStartsWith image_base64 "data:image" then
    let fmt :=
      if containsSub (lowerStr image_base64) "jpeg" then "jpeg"
      else if containsSub (lowerStr image_base64) "png" then "png"
      else "jpeg"
    match pySplitField1 image_base64 with
    | none => .error "list index out of range"
    | some p => .ok (stripWs p, fmt)
  else .ok (stripWs image_base64, "jpeg")

/-- The whole normalization block (openai_service.py 189-207): prefix strip,
whitespace removal, then a test decode; any exception is re-raised as
`ValueError("Invalid base64 image data: ...")` — the spec's
`InvalidImageData`. On success the cleaned payload and format flow on. -/
def normalizeImage (raw : String) : Except String (String × String) :=
  match extractPayloadFormat raw with
  | .error e => .error ("Invalid base64 image data: " ++ e)
  | .ok (payload, fmt) =>
    match pyB64Decode false payload with
    | .ok _ => .ok (payload, fmt)
    | .error e => .error ("Invalid base64 image data: " ++ e)

/-- The data URL that `identify_component` embeds in the model request
(openai_service.py 239) — built only when normalization succeeded. -/
def identifyImageUrl (raw : String) : Except String String :=
  match normalizeImage raw with
  | .error e => .error e
  | .ok pf => .ok ("data:image/" ++ pf.2 ++ ";base64," ++ pf.1)

/-- Claim C5 (amended): whenever the whitespace-stripped payload fails the
Python base64 decode, normalization fails with `InvalidImageData` carrying
the decode error text, and no model request is built. (The `decodes to an
empty byte sequence` half of the claim is refuted separately: empty payloads
decode successfully and are passed on.) -/
theorem normalize_invalid_b64_c5 (raw payload fmt e : String)
    (h1 : extractPayloadFormat raw = .ok (payload, fmt))
    (h2 : pyB64Decode false payload = .error e) :
    normalizeImage raw = .error ("Invalid base64 image data: " ++ e) ∧
    identifyImageUrl raw = .error ("Invalid base64 image data: " ++ e) := by
  have hn : normalizeImage raw = .error ("Invalid base64 image data: " ++ e) := by
    unfold normalizeImage
    rw [h1]
    dsimp only
    rw [h2]
  exact ⟨hn, by unfold identifyImageUrl; rw [hn]⟩

/-- Witness for the amended C5: a three-character payload is not valid
padded base64 and is rejected. -/
theorem normalize_invalid_b64_c5_witness :
    normalizeImage "abc" = .error ("Invalid base64 image data: " ++ "Incorrect padding") ∧
    identifyImageUrl "abc" = .error ("Invalid base64 image data: " ++ "Incorrect padding") :=
  normalize_invalid_b64_c5 "abc" "abc" "jpeg" "Incorrect padding" rfl rfl

/-- Counterexample to C5 as stated: a data-URI input with an empty payload
decodes to the empty byte sequence, yet normalization succeeds and the empty
payload is passed on into the model request, instead of failing with
`InvalidImageData`. -/
theorem normalize_empty_c5_cex :
    normalizeImage "data:image/png;base64," = .ok ("", "png") ∧
    pyB64Decode false "" = .ok [] ∧
    identifyImageUrl "data:image/png;base64," = .ok "data:image/png;base64," := by
  exact ⟨rfl, rfl, rfl⟩

lemma isPrefixOf_append_left {l₁ l₂ : List Char} (t : List Char)
    (h : l₁.isPrefixOf l₂ = true) : l₁.isPrefixOf (l₂ ++ t) = true :=
  List.isPrefixOf_iff_prefix.2
    ((List.isPrefixOf_iff_prefix.1 h).trans (List.prefix_append l₂ t))

lemma containsSubChars_append_left (pat : List Char) :
    ∀ l t, containsSubChars pat l = true → containsSubChars pat (l ++ t) = true := by
  intro l
  induction l with
  | nil =>
    intro t h
    simp only [containsSubChars, List.isEmpty_iff] at h
    subst h
    cases t with
    | nil => rfl
    | cons c cs => simp [containsSubChars]
  | cons c cs ih =>
    intro t h
    simp only [containsSubChars, Bool.or_eq_true] at h ⊢
    rcases h with h | h
    · exact Or.inl (isPrefixOf_append_left t h)
    · exact Or.inr (ih t h)

lemma splitCommaAux_no_comma :
    ∀ (l cur : List Char), ',' ∉ l → splitCommaAux l cur = [cur.reverse ++ l] := by
  intro l
  induction l with
  | nil => intro cur _; simp [splitCommaAux]
  | cons c cs ih =>
    intro cur h
    have hc : ¬ c = ',' := fun hh => h (hh ▸ List.mem_cons_self c cs)
    rw [splitCommaAux, if_neg hc, ih (c :: cur) (fun hm => h (List.mem_cons_of_mem c hm))]
    simp

lemma splitCommaAux_append :
    ∀ (l₁ l₂ cur : List Char), ',' ∉ l₁ →
      splitCommaAux (l₁ ++ ',' :: l₂) cur = (cur.reverse ++ l₁) :: splitCommaAux l₂ [] := by
  intro l₁
  induction l₁ with
  | nil => intro l₂ cur _; simp [splitCommaAux]
  | cons c cs ih =>
    intro l₂ cur h
    have hc : ¬ c = ',' := fun hh => h (hh ▸ List.mem_cons_self c cs)
    rw [List.cons_append, splitCommaAux, if_neg hc,
      ih l₂ (c :: cur) (fun hm => h (List.mem_cons_of_mem c hm))]
    simp

/-- Claim C6 (amended): for a valid whitespace-injected base64 payload the
normalizer returns the cleaned payload, which decodes; with a
`data:image/jpeg;base64,` prefix the returned format is `jpeg`; with a
`data:image/png;base64,` prefix it is `png` provided the substring `jpeg`
occurs nowhere in the lowercased input (the source searches the entire
string, not the prefix — see the counterexample); without a prefix the
format defaults to `jpeg`. -/
theorem normalize_roundtrip_c6 (rest p : String) (bs : List Nat) :
    (stripWs rest = p → pyB64Decode false p = .ok bs → ',' ∉ rest.data →
      normalizeImage ("data:image/jpeg;base64," ++ rest) = .ok (p, "jpeg")) ∧
    (stripWs rest = p → pyB64Decode false p = .ok bs → ',' ∉ rest.data →
      containsSub (lowerStr ("data:image/png;base64," ++ rest)) "jpeg" = false →
      normalizeImage ("data:image/png;base64," ++ rest) = .ok (p, "png")) ∧
    (stripWs rest = p → pyB64Decode false p = .ok bs →
      pyStartsWith rest "data:image" = false →
      normalizeImage rest = .ok (p, "jpeg")) := by
  refine ⟨?_, ?_, ?_⟩
  · intro hstrip hdec hnc
    have hsw : pyStartsWith ("data:image/jpeg;base64," ++ rest) "data:image" = true := by
      unfold pyStartsWith
      rw [String.data_append]
      exact isPrefixOf_append_left _ (by decide)
    have hjp : containsSub (lowerStr ("data:image/jpeg;base64," ++ rest)) "jpeg" = true := by
      unfold containsSub lowerStr
      rw [String.data_append, List.map_append]
      exact containsSubChars_append_left _ _ _ (by decide)
    have hsplit : pySplitField1 ("data:image/jpeg;base64," ++ rest) = some rest := by
      unfold pySplitField1
      rw [String.data_append,
        show ("data:image/jpeg;base64," : String).data =
          ("data:image/jpeg;base64" : String).data ++ [','] from rfl,
        List.append_assoc, List.singleton_append,
        splitCommaAux_append _ _ _ (by decide),
        splitCommaAux_no_comma _ _ hnc]
      simp
    unfold normalizeImage extractPayloadFormat
    simp [hsw, hjp, hsplit, hstrip, hdec]
  · intro hstrip hdec hnc hnojp
    have hsw : pyStartsWith ("data:image/png;base64," ++ rest) "data:image" = true := by
      unfold pyStartsWith
      rw [String.data_append]
      exact isPrefixOf_append_left _ (by decide)
    have hpng : containsSub (lowerStr ("data:image/png;base64," ++ rest)) "png" = true := by
      unfold containsSub lowerStr
      rw [String.data_append, List.map_append]
      exact containsSubChars_append_left _ _ _ (by decide)
    have hsplit : pySplitField1 ("data:image/png;base64," ++ rest) = some rest := by
      unfold pySplitField1
      rw [String.data_append,
        show ("data:image/png;base64," : String).data =
          ("data:image/png;base64" : String).data ++ [','] from rfl,
        List.append_assoc, List.singleton_append,
        splitCommaAux_append _ _ _ (by decide),
        splitCommaAux_no_comma _ _ hnc]
      simp
    unfold normalizeImage extractPayloadFormat
    simp [hsw, hnojp, hpng, hsplit, hstrip, hdec]
  · intro hstrip hdec hsw
    unfold normalizeImage extractPayloadFormat
    simp [hsw, hstrip, hdec]

/-- Witness for the amended C6: the payload `aGVs bG8=` with an injected
space, in all three placements. -/
theorem normalize_roundtrip_c6_witness :
    normalizeImage ("data:image/jpeg;base64," ++ "aGVs bG8=") = .ok ("aGVsbG8=", "jpeg") ∧
    normalizeImage ("data:image/png;base64," ++ "aGVs bG8=") = .ok ("aGVsbG8=", "png") ∧
    normalizeImage "aGVs bG8=" = .ok ("aGVsbG8=", "jpeg") := by
  have h := normalize_roundtrip_c6 "aGVs bG8=" "aGVsbG8=" [104, 101, 108, 108, 111]
  exact ⟨h.1 rfl rfl (by decide), h.2.1 rfl rfl (by decide) (by decide),
    h.2.2 rfl rfl rfl⟩

/-- Counterexample to C6 as stated: the declared format of
`data:image/png;base64,jpeg` is `png`, but because the source looks for the
substring `jpeg` in the whole lowercased input — payload included — the
normalizer returns format `jpeg`. -/
theorem normalize_format_c6_cex :
    normalizeImage "data:image/png;base64,jpeg" = .ok ("jpeg", "jpeg") ∧
    ("jpeg" : String) ≠ "png" := by
  exact ⟨rfl, by decide⟩

/- ===================================================================
   Part 5: the two-stage pipeline (services.py 210-330) and the endpoint
   input gate (api/main.py 187-230)
   =================================================================== -/

/-- Modelled from the spec: the Step of §3 validated by the two-stage
pipeline of `services.py`. That file imports `WiringStep` and
`WIRING_PLAN_SCHEMA` from a top-level `schemas` module (the "safe pin" plan
model, 5 steps, per §9) that is absent from the tree; only
`core/schemas.py`'s later model exists. Fields follow §3's Step record. -/
structure SpecStep where
  sequence : Int
  target_label : String
  required_value : String
  correct_target : String
  unsafe_alternative : String
  rationale_text : String
  warning_text : String
  diagram_url : String
  requires_verification : Bool
  verification_criteria : String
deriving DecidableEq, Repr

/-- Modelled from the spec: a well-formed URL, read as an http(s) URL. -/
def isWellFormedUrl (s : String) : Bool :=
  pyStartsWith s "http://" || pyStartsWith s "https://"

/-- Modelled from the spec: element validation for the missing old
`WiringStep` model, following §3's invariants — every field required,
`sequence ≥ 1`, empty string a valid value only for `diagram_url`, and a
non-empty `diagram_url` must be a well-formed URL. -/
def validateSpecStep (j : Json) : Option SpecStep :=
  match j with
  | .obj fields =>
    ((getField fields "sequence").bind asInt).bind fun sequence =>
    if sequence < 1 then none else
    ((getField fields "target_label").bind asStr).bind fun target_label =>
    if target_label = "" then none else
    ((getField fields "required_value").bind asStr).bind fun required_value =>
    if required_value = "" then none else
    ((getField fields "correct_target").bind asStr).bind fun correct_target =>
    if correct_target = "" then none else
    ((getField fields "unsafe_alternative").bind asStr).bind fun unsafe_alternative =>
    if unsafe_alternative = "" then none else
    ((getField fields "rationale_text").bind asStr).bind fun rationale_text =>
    if rationale_text = "" then none else
    ((getField fields "warning_text").bind asStr).bind fun warning_text =>
    if warning_text = "" then none else
    ((getField fields "diagram_url").bind asStr).bind fun diagram_url =>
    if diagram_url = "" ∨ isWellFormedUrl diagram_url = true then
      ((getField fields "requires_verification").bind asBool).bind
        fun requires_verification =>
      ((getField fields "verification_criteria").bind asStr).bind
        fun verification_criteria =>
      if verification_criteria = "" then none else
      some ⟨sequence, target_label, required_value, correct_target,
        unsafe_alternative, rationale_text, warning_text, diagram_url,
        requires_verification, verification_criteria⟩
    else none
  | _ => none

/-- Failures of the two-stage pipeline: the `ValueError("Empty response from
VLM API")` of stage 1, and the `ValueError("Failed to generate valid wiring
plan: ...")` wrapping parse/validation failures of stage 2. -/
inductive PipelineError where
  | emptyVLMResponse
  | invalidPlan
deriving DecidableEq, Repr

/-- Stage 1 (`identify_component`, services.py 25-110) with the remote call
stubbed: the stub's response content is returned, after the non-emptiness
check of line 103. -/
def identify_component_stub (visionContent : String) : Except PipelineError String :=
  if visionContent = "" then .error .emptyVLMResponse else .ok visionContent

/-- Stage 2 (`generate_wiring_plan`, services.py 210-301) with the remote
call stubbed to the parsed JSON value `planContent`: the content must be a
JSON array (`json.loads(content)` then iteration), and every element is
validated in order (`[WiringStep(**step) for step in wiring_steps]`),
spec-modelled by `validateSpecStep`. -/
def generate_wiring_plan (planContent : Json) : Except PipelineError (List SpecStep) :=
  match planContent with
  | .arr js =>
    match validateAll validateSpecStep js with
    | some steps => .ok steps
    | none => .error .invalidPlan
  | _ => .error .invalidPlan

/-- `orchestrate_full_pipeline` (services.py 303-330): stage 1 then stage 2,
each propagating its error. -/
def orchestrate_full_pipeline (visionContent : String) (planContent : Json) :
    Except PipelineError (List SpecStep) :=
  match identify_component_stub visionContent with
  | .error e => .error e
  | .ok _ => generate_wiring_plan planContent

/-- Claim C8: when the stub vision call returns a (non-empty) description and
the stub planning call returns a JSON array that validates to five steps with
sequence numbers 1..5, the pipeline returns exactly that validated list — the
`.ok steps` equality is order preservation end-to-end, since `validateAll`
returns the elements in input order. Status note: the old plan schema is
spec-modelled (see `SpecStep`). -/
theorem pipeline_five_steps_c8 (vision : String) (js : List Json)
    (steps : List SpecStep)
    (hv : vision ≠ "")
    (hval : validateAll validateSpecStep js = some steps)
    (hseq : steps.map SpecStep.sequence = [1, 2, 3, 4, 5]) :
    orchestrate_full_pipeline vision (Json.arr js) = .ok steps ∧
    steps.length = 5 ∧
    steps.map SpecStep.sequence = [1, 2, 3, 4, 5] := by
  refine ⟨?_, ?_, hseq⟩
  · unfold orchestrate_full_pipeline identify_component_stub generate_wiring_plan
    rw [if_neg hv]
    dsimp only
    rw [hval]
  · have hlen := congrArg List.length hseq
    simpa using hlen

/-- One well-formed stub step with the given sequence number. -/
def specStepJson (n : Int) : Json :=
  Json.obj
    [("sequence", Json.int n), ("target_label", Json.str "GPIO Pin 17"),
     ("required_value", Json.str "220 ohm"),
     ("correct_target", Json.str "Pin 17"),
     ("unsafe_alternative", Json.str "5V Pin"),
     ("rationale_text", Json.str "limits current"),
     ("warning_text", Json.str "would burn the LED"),
     ("diagram_url", Json.str ""), ("requires_verification", Json.bool true),
     ("verification_criteria", Json.str "photo of the wire")]

/-- The validated value of `specStepJson n`. -/
def specStepVal (n : Int) : SpecStep :=
  ⟨n, "GPIO Pin 17", "220 ohm", "Pin 17", "5V Pin", "limits current",
   "would burn the LED", "", true, "photo of the wire"⟩

/-- Witness for C8: the §8 end-to-end scenario with the stub vision
description and five well-formed stub steps. -/
theorem pipeline_five_steps_c8_witness :
    orchestrate_full_pipeline "Raspberry Pi 4, unpowered, GPIO header visible"
        (Json.arr [specStepJson 1, specStepJson 2, specStepJson 3,
          specStepJson 4, specStepJson 5]) =
      .ok [specStepVal 1, specStepVal 2, specStepVal 3, specStepVal 4,
        specStepVal 5] ∧
    [specStepVal 1, specStepVal 2, specStepVal 3, specStepVal 4,
      specStepVal 5].length = 5 ∧
    [specStepVal 1, specStepVal 2, specStepVal 3, specStepVal 4,
      specStepVal 5].map SpecStep.sequence = [1, 2, 3, 4, 5] :=
  pipeline_five_steps_c8 "Raspberry Pi 4, unpowered, GPIO header visible"
    [specStepJson 1, specStepJson 2, specStepJson 3, specStepJson 4,
      specStepJson 5]
    [specStepVal 1, specStepVal 2, specStepVal 3, specStepVal 4,
      specStepVal 5]
    (by decide) rfl rfl

/-- Outcome of the `generate_plan` endpoint handler before any remote model
call: an early HTTP rejection, or entry into the pipeline with the cleaned
payload. -/
inductive HandlerResult where
  | rejected (status : Nat) (detail : String)
  | pipelineCalled (image_data : String)
deriving DecidableEq, Repr

/-- The input-validation prefix of the `generate_plan` handler
(api/main.py 187-237): the API-key check, then the emptiness/minimum-length
gate (HTTP 400), then prefix strip, strict base64 validation and the decoded
8MB size cap — note the size-cap `HTTPException` is raised inside the `try`
and so is caught and replaced by the generic 400 message. Only after all
gates does the pipeline run. -/
def generate_plan (apiKeyConfigured : Bool) (image_data : String) : HandlerResult :=
  if !apiKeyConfigured then
    .rejected 500
      "API key not configured. Please set NVIDIA_API_KEY environment variable."
  else if image_data.length = 0 ∨ image_data.length < 100 then
    .rejected 400 "Invalid or missing base64 image data"
  else
    match (if pyStartsWith image_data "data:image" then pySplitField1 image_data
      else some image_data) with
    | none => .rejected 400 "Invalid base64 encoding in image data"
    | some d =>
      match pyB64Decode true d with
      | .error _ => .rejected 400 "Invalid base64 encoding in image data"
      | .ok decoded =>
        if 8 * 1024 * 1024 < decoded.length then
          .rejected 400 "Invalid base64 encoding in image data"
        else .pipelineCalled d

/-- Claim C10: any request whose `image_data` is shorter than 100 characters
(which subsumes the empty/falsy case) is rejected with HTTP 400 before the
pipeline — and hence before any remote model call — even if it is valid
base64. -/
theorem endpoint_min_length_c10 (image_data : String)
    (h : image_data.length < 100) :
    generate_plan true image_data =
      .rejected 400 "Invalid or missing base64 image data" := by
  unfold generate_plan
  simp [h]

/-- Witness for C10: the 96-character base64 encoding of a 1x1 PNG (the
`test_with_dummy_data` payload of sample_request.py) is valid base64 yet is
refused at the gate. -/
theorem endpoint_min_length_c10_witness :
    generate_plan true
        "iVBORw0KGgoAAAANSUhEUgAAAAEAAAABCAYAAAAfFcSJAAAADUlEQVR42mNk+M9QDwADhgGAWjR9awAAAABJRU5ErkJggg==" =
      .rejected 400 "Invalid or missing base64 image data" ∧
    (pyB64Decode false
        "iVBORw0KGgoAAAANSUhEUgAAAAEAAAABCAYAAAAfFcSJAAAADUlEQVR42mNk+M9QDwADhgGAWjR9awAAAABJRU5ErkJggg==").isOk
      = true :=
  ⟨endpoint_min_length_c10 _ (by decide), rfl⟩

end TaskLens
